import Mathlib

/-
  Verification development for the wdk-react-native-core initialization and
  concurrency-control subsystem.

  Shallow embedding of:
  - the useMutex primitive (src/hooks/useWallet.ts, non-queuing mode),
  - the wallet lifecycle reducer (src/utils/walletState.ts and
    src/provider/WdkAppProvider.tsx),
  - the combined status projection (src/utils/initializationState.ts),
  - the worklet lifecycle service (src/services/workletLifecycleService.ts),
  - the account RPC result handling (src/services/accountService.ts),
  - the provider orchestration entry points checkPrerequisites, loadExisting
    and createNew (src/provider/WdkAppProvider.tsx).

  Asynchronous JavaScript code is embedded as explicit state passing: a value
  of type Except models the settlement of a promise (ok = resolve,
  error = reject).  External collaborators (secure storage, the worklet
  runtime, JSON.parse) are parameters of the model.  React closure semantics
  matter for the provider: values read through hooks are captured at render
  time (the ProviderSnapshot below) while refs and stores are live (the
  ProviderRefs below); reducer dispatches update the live machine state but
  never the captured snapshot.
-/

namespace WdkCore

/-! ## Mutex primitive (useMutex with queuing disabled)

Source: src/hooks/useWallet.ts, lines 462-530.  With `options.queue`
unset the acquire function is: if locked, return immediately (the promise
resolves with no value and the operation is never invoked); otherwise set
locked, run the operation, and clear locked in a finally, rethrowing any
error after the lock is released. -/

/-- Result of one complete acquire call in non-queuing mode, from the source
lines 506-518.  Input: the lock state observed on entry and the settlement
of the wrapped operation.  Output: the lock state after the call has
settled, the settlement of the acquire call itself, and whether the
operation body was invoked. -/
def mutexAcquire {E : Type} (locked : Bool) (f : Except E Unit) :
    Bool × Except E Unit × Bool :=
  if locked then
    (locked, Except.ok (), false)
  else
    (false, f, true)

/-- Interleaving state of the mutex: the lock flag together with the
operation currently executing inside the guarded section, if any. -/
structure MutexTrState (E : Type) where
  locked : Bool
  running : Option (Except E Unit)
deriving Repr

/-- Events at the suspension points of the source: a synchronous acquire
call (the code up to the await of the operation runs atomically), and the
settlement of the running operation (the finally block). -/
inductive MutexEvent (E : Type)
  | callEv (f : Except E Unit)
  | settleEv

/-- One step of the non-queuing mutex.  A call while locked is dropped
(state unchanged, the caller resolves immediately); a call while unlocked
sets the lock and starts the operation; a settlement runs the finally block,
which unconditionally clears the lock. -/
def mutexStep {E : Type} (s : MutexTrState E) : MutexEvent E → MutexTrState E
  | .callEv f =>
      if s.locked then s
      else { locked := true, running := some f }
  | .settleEv =>
      match s.running with
      | some _ => { locked := false, running := none }
      | none => s

/-- Run a schedule of mutex events from a state. -/
def mutexRun {E : Type} (s : MutexTrState E) : List (MutexEvent E) → MutexTrState E
  | [] => s
  | e :: es => mutexRun (mutexStep s e) es

/-! ## Wallet lifecycle state machine

Source: src/utils/walletState.ts lines 18-58, duplicated verbatim in
src/provider/WdkAppProvider.tsx lines 37-69. -/

/-- Error value: the name and message of a JavaScript Error object. -/
structure ErrVal where
  name : String
  message : String
deriving DecidableEq, Repr

/-- WalletState variants from the source union type. -/
inductive WalletState
  | not_loaded
  | checking (identifier : String)
  | loading (identifier : String) (walletExists : Bool)
  | ready (identifier : String)
  | error (identifier : Option String) (cause : ErrVal)
deriving DecidableEq, Repr

/-- WalletAction events.  The source union type has the six named events;
the reducer switch also has a default arm, and at runtime JavaScript can
dispatch values outside the declared union, so the model carries an extra
constructor UNKNOWN standing for any event outside the declared set, which
the reducer sends through its default arm. -/
inductive WalletAction
  | CHECK_WALLET (identifier : String)
  | WALLET_CHECKED (identifier : String) (wexists : Bool)
  | START_LOADING (identifier : String) (walletExists : Bool)
  | WALLET_LOADED (identifier : String)
  | WALLET_ERROR (identifier : Option String) (cause : ErrVal)
  | RESET
  | UNKNOWN
deriving DecidableEq, Repr

/-- The wallet state reducer, switch arm by switch arm from the source. -/
def walletReducer (state : WalletState) (action : WalletAction) : WalletState :=
  match action with
  | .CHECK_WALLET id => .checking id
  | .WALLET_CHECKED id ex => .loading id ex
  | .START_LOADING id ex => .loading id ex
  | .WALLET_LOADED id => .ready id
  | .WALLET_ERROR id cause => .error id cause
  | .RESET => .not_loaded
  | .UNKNOWN => state

/-! ## Combined status projection

Source: src/utils/initializationState.ts lines 129-159, duplicated in
src/provider/WdkAppProvider.tsx lines 74-104. -/

/-- InitializationStatus enum from the source. -/
inductive InitializationStatus
  | IDLE
  | STARTING_WORKLET
  | WORKLET_READY
  | LOADING_WALLET
  | READY
  | ERROR
deriving DecidableEq, Repr

/-- The worklet fields read by getCombinedStatus.  The error field has
TypeScript type string or null, embedded as Option String. -/
structure WorkletView where
  isWorkletStarted : Bool
  isLoading : Bool
  error : Option String
deriving DecidableEq, Repr

/-- JavaScript truthiness of a value of type string or null: truthy exactly
when it is a non-empty string.  The source tests the error field with a bare
if, so this is the test it performs. -/
def strTruthy : Option String → Bool
  | none => false
  | some s => !(s == "")

/-- getCombinedStatus from the source: worklet errors first (a truthiness
test on the error field), then the not-started cases, then the switch over
the wallet variant. -/
def getCombinedStatus (w : WorkletView) (ws : WalletState) : InitializationStatus :=
  if strTruthy w.error then
    .ERROR
  else if !w.isWorkletStarted then
    (if w.isLoading then .STARTING_WORKLET else .IDLE)
  else
    match ws with
    | .not_loaded => .WORKLET_READY
    | .checking _ => .LOADING_WALLET
    | .loading _ _ => .LOADING_WALLET
    | .ready _ => .READY
    | .error _ _ => .ERROR

/-- The projection described by the amended claim C3, written from its
words: if the runtime error field is set to a non-empty string, Error
dominates; otherwise if the runtime is not started the result is
StartingRuntime when loading and Idle when not; otherwise the wallet
variant is mapped NotLoaded to RuntimeReady, Checking and Loading to
LoadingWallet, Ready to Ready, Error to Error. -/
def projectSpecified (w : WorkletView) (ws : WalletState) : InitializationStatus :=
  match w.error with
  | some s =>
      if s = "" then projectNoErrorSpecified w ws else .ERROR
  | none => projectNoErrorSpecified w ws
where
  projectNoErrorSpecified (w : WorkletView) (ws : WalletState) : InitializationStatus :=
    if w.isWorkletStarted = false then
      (if w.isLoading = true then .STARTING_WORKLET else .IDLE)
    else
      match ws with
      | .not_loaded => .WORKLET_READY
      | .checking _ => .LOADING_WALLET
      | .loading _ _ => .LOADING_WALLET
      | .ready _ => .READY
      | .error _ _ => .ERROR

/-! ## Worklet lifecycle service

Source: src/services/workletLifecycleService.ts.  The worklet store state
carries the fields written by startWorklet (lines 98-177) and initializeWDK
(lines 182-247).  Opaque JavaScript handles (Worklet, HRPC, IPC) are
embedded as Option Unit: only presence matters.  The runtime start call and
the WDK initialize call are external collaborators, passed in as the
settlement their promise would have. -/

/-- The worklet store fields touched by the lifecycle service. -/
structure WorkletStoreState where
  isLoading : Bool
  isWorkletStarted : Bool
  isInitialized : Bool
  error : Option String
  worklet : Option Unit
  hrpc : Option Unit
  ipc : Option Unit
  networkConfigs : Option String
  encryptionKey : Option String
  encryptedSeed : Option String
  workletStartResult : Option String
  wdkInitResult : Option String
deriving DecidableEq, Repr

/-- startWorklet from the source.  Guard clauses: no-op while loading, no-op
when already started.  Otherwise the store is marked loading with the error
cleared, the pre-existing channel is torn down best-effort (which performs
no store writes), a fresh worklet and channel are constructed and the
runtime start call is issued; `attempt` is its settlement.  On success the
handles are stored and the store is marked started; on failure the handle
fields are cleared, the error field set, started and loading left false,
and the error rethrown (normalizeError is called with sanitize false, which
preserves the message).  The third component records whether the runtime
start call was issued. -/
def startWorklet (s : WorkletStoreState) (cfg : String)
    (attempt : Except String String) :
    WorkletStoreState × Except String Unit × Bool :=
  if s.isLoading then
    (s, Except.ok (), false)
  else if s.isWorkletStarted then
    (s, Except.ok (), false)
  else
    let s1 := { s with error := none, isLoading := true }
    match attempt with
    | .ok res =>
        ({ s1 with worklet := some (), hrpc := some (), ipc := some (),
                   isWorkletStarted := true, isLoading := false,
                   networkConfigs := some cfg,
                   workletStartResult := some res, error := none },
         Except.ok (), true)
    | .error m =>
        ({ s1 with error := some m, isLoading := false, worklet := none,
                   hrpc := none, ipc := none, isWorkletStarted := false },
         Except.error m, true)

/-- The synchronous prefix of startWorklet, up to and including the store
write that marks the service loading (the code before the first await).
Returns the store as observed by any later caller while this call is still
pending, and whether this call will issue the runtime start. -/
def startWorkletEnter (s : WorkletStoreState) : WorkletStoreState × Bool :=
  if s.isLoading then (s, false)
  else if s.isWorkletStarted then (s, false)
  else ({ s with error := none, isLoading := true }, true)

/-- initializeWDK from the source.  Requires a started worklet with a live
channel, else throws the precondition error.  Idempotent no-op when already
initialized with the same encryption key and encrypted seed.  Otherwise
marks loading, issues the runtime initialize call (settlement `attempt`,
carrying the optional status string of the result), and on success stores
the credentials and marks initialized; on failure records the error message
and clears the initialized flag.  The third component records whether the
runtime initialize call was issued. -/
def initializeWDK (s : WorkletStoreState) (key seed : String)
    (attempt : Except String (Option String)) :
    WorkletStoreState × Except String Unit × Bool :=
  if s.isWorkletStarted = false ∨ s.hrpc = none then
    (s, Except.error "Worklet must be started before initializing WDK", false)
  else if s.isInitialized = true ∧ s.encryptionKey = some key ∧
      s.encryptedSeed = some seed then
    (s, Except.ok (), false)
  else
    let s1 := { s with error := none, isLoading := true }
    match attempt with
    | .ok status =>
        ({ s1 with isInitialized := true, isLoading := false,
                   encryptedSeed := some seed, encryptionKey := some key,
                   wdkInitResult := status, error := none },
         Except.ok (), true)
    | .error m =>
        ({ s1 with error := some m, isLoading := false, isInitialized := false },
         Except.error m, true)

/-! ## Account service result handling

Source: src/services/accountService.ts, callAccountMethod lines 87-129.
The JSON payload decoded from the runtime response is embedded as a tree
that may carry BigInt leaves, exactly the shape the recursive conversion in
the source traverses (JavaScript primitives, arrays, plain objects). -/

/-- A decoded JavaScript value as traversed by convertBigIntToString. -/
inductive JsonValue
  | nullV
  | boolV (b : Bool)
  | numV (n : Int)
  | strV (s : String)
  | bigintV (n : Int)
  | arrV (items : List JsonValue)
  | objV (fields : List (String × JsonValue))

mutual

/-- convertBigIntToString from the source: BigInt leaves become their
decimal string, arrays and objects are mapped recursively, every other
value is returned unchanged. -/
def convertBigIntToString : JsonValue → JsonValue
  | .nullV => .nullV
  | .boolV b => .boolV b
  | .numV n => .numV n
  | .strV s => .strV s
  | .bigintV n => .strV (toString n)
  | .arrV items => .arrV (convertBigIntList items)
  | .objV fields => .objV (convertBigIntFields fields)

/-- Map the conversion over the elements of an array. -/
def convertBigIntList : List JsonValue → List JsonValue
  | [] => []
  | v :: vs => convertBigIntToString v :: convertBigIntList vs

/-- Map the conversion over the values of an object. -/
def convertBigIntFields : List (String × JsonValue) → List (String × JsonValue)
  | [] => []
  | (k, v) :: fs => (k, convertBigIntToString v) :: convertBigIntFields fs

end

mutual

/-- Whether a value contains a BigInt anywhere, at any nesting depth. -/
def hasBigInt : JsonValue → Bool
  | .bigintV _ => true
  | .arrV items => hasBigIntList items
  | .objV fields => hasBigIntFields fields
  | _ => false

/-- Whether any element of an array contains a BigInt. -/
def hasBigIntList : List JsonValue → Bool
  | [] => false
  | v :: vs => hasBigInt v || hasBigIntList vs

/-- Whether any value of an object contains a BigInt. -/
def hasBigIntFields : List (String × JsonValue) → Bool
  | [] => false
  | (_, v) :: fs => hasBigInt v || hasBigIntFields fs

end

/-- callAccountMethod from the source, from the point where the runtime
response has settled (the preceding argument validation and the
initialized-store guard are upstream of the behavior claimed here).  The
response carries the optional result field; `parse` is JSON.parse, an
external collaborator that either decodes the string or throws a cause
message.  A missing result field, and also a falsy one (the source tests
the field with a bare if, so the empty string takes the same branch), is
the no-result error; a result decoding to null is the null-result error,
rethrown unchanged by the inner catch; a parse failure is wrapped with the
method name; on success BigInt values are converted before returning.  The
outer catch normalizes with sanitize false, which preserves messages. -/
def callAccountMethod (methodName : String) (response : Option String)
    (parse : String → Except String JsonValue) : Except String JsonValue :=
  match response with
  | none => Except.error ("Method " ++ methodName ++ " returned no result")
  | some raw =>
      if raw = "" then
        Except.error ("Method " ++ methodName ++ " returned no result")
      else
        match parse raw with
        | .ok JsonValue.nullV => Except.error "Parsed result is null or undefined"
        | .ok v => Except.ok (convertBigIntToString v)
        | .error cause =>
            Except.error
              ("Failed to parse result from " ++ methodName ++ ": " ++ cause)

/-! ## Provider orchestration

Source: src/provider/WdkAppProvider.tsx.  The entry points are useCallback
closures: the values they read through hooks (isWorkletStarted, the
isInitialized flag of useWallet, the reducer walletState, the activeWalletId
subscription) are captured at render time and do not change during one
invocation, even across awaits and dispatches.  Refs and zustand store
writes are live.  The model therefore threads two records: the render-time
snapshot (read-only) and the live refs (written by dispatches, setState and
ref assignments). -/

/-- Cooldown window after an authentication failure, from the source
constant AUTH_ERROR_COOLDOWN_MS (3000 milliseconds). -/
def AUTH_ERROR_COOLDOWN_MS : Int := 3000

/-- Values captured by the entry-point closures at render time. -/
structure ProviderSnapshot where
  isWorkletStarted : Bool
  isWorkletInitializedForWallet : Bool
  walletState : WalletState
  activeWalletId : Option String
deriving DecidableEq, Repr

/-- Live mutable state: the committed reducer state (dispatches land here),
the wallet store active pointer, the last-auth-error ref, and the
credentials cache of WalletSetupService, as the set of identifiers that
have a cached entry. -/
structure ProviderRefs where
  machine : WalletState
  activeWalletId : Option String
  lastAuthError : Option Int
  credCache : List String
deriving DecidableEq, Repr

/-- Trace of calls made to the external collaborators during one entry
point invocation: whether the secure-storage existence check ran, the
credential initializations issued as (createNew flag, identifier) pairs,
and the identifiers whose secure-storage deletion was attempted. -/
structure ProviderTrace where
  calledHasWallet : Bool
  calledInitializeWallet : List (Bool × String)
  deleteAttempts : List String
deriving DecidableEq, Repr

/-- The empty trace at the start of an invocation. -/
def emptyTrace : ProviderTrace :=
  { calledHasWallet := false, calledInitializeWallet := [], deleteAttempts := [] }

/-- External collaborators of the provider: the secure-storage existence
check, the WalletSetupService credential initialization keyed by
(createNew flag, identifier), secure-storage deletion, the message
transformation applied by normalizeError with sanitize true (the
sanitization regexes and the NODE_ENV switch are outside the model), the
authentication-failure classifier, and the clock reading of the
invocation.

The classifier isAuthenticationError lives in src/utils/errorUtils.ts,
whose definition is not among the provided sources.  Modelled from the
spec: on an authentication-shaped failure the cooldown timestamp is
recorded; the model keeps the shape test abstract as a predicate on the
normalized error. -/
structure ProviderEnv where
  hasWallet : String → Except ErrVal Bool
  initializeWallet : Bool → String → Except ErrVal Unit
  deleteWallet : String → Except ErrVal Unit
  normalizeMsg : String → String
  isAuthError : ErrVal → Bool
  now : Int

/-- normalizeError as used by the provider: the name is preserved and the
message passes through the sanitizer. -/
def normErr (env : ProviderEnv) (e : ErrVal) : ErrVal :=
  { name := e.name, message := env.normalizeMsg e.message }

/-- The wallet-existence step of checkPrerequisites: dispatch CHECK_WALLET,
await the secure-storage check, then dispatch WALLET_CHECKED on success or
WALLET_ERROR with the normalized error on failure, rethrowing the original
error. -/
def checkWalletStep (env : ProviderEnv) (r : ProviderRefs) (t : ProviderTrace)
    (identifier : String) : ProviderRefs × ProviderTrace × Except ErrVal Unit :=
  let r1 := { r with machine := walletReducer r.machine (.CHECK_WALLET identifier) }
  let t1 := { t with calledHasWallet := true }
  match env.hasWallet identifier with
  | .ok b =>
      ({ r1 with machine := walletReducer r1.machine (.WALLET_CHECKED identifier b) },
       t1, Except.ok ())
  | .error e =>
      ({ r1 with machine :=
           walletReducer r1.machine (.WALLET_ERROR (some identifier) (normErr env e)) },
       t1, Except.error e)

/-- The cooldown error thrown by checkPrerequisites, stating the remaining
time of the window in milliseconds. -/
def cooldownError (remaining : Int) : ErrVal :=
  { name := "Error",
    message := "Skipping initialization - cooldown period active (" ++
      toString remaining ++ "ms remaining)" }

/-- The switching-wallets step of checkPrerequisites: when the captured
active wallet differs from the requested identifier, the credentials cache
entry of the previous wallet is cleared. -/
def clearPrevCache (snap : ProviderSnapshot) (r : ProviderRefs)
    (identifier : String) : ProviderRefs :=
  match snap.activeWalletId with
  | some prev =>
      if prev ≠ identifier then { r with credCache := r.credCache.erase prev }
      else r
  | none => r

/-- checkPrerequisites from the source (lines 299-337): the started guard,
the switching-wallets cache clear, the already-initialized short circuit,
the auth-failure cooldown gate, then the existence check. -/
def checkPrerequisites (snap : ProviderSnapshot) (env : ProviderEnv)
    (r : ProviderRefs) (t : ProviderTrace) (identifier : String) :
    ProviderRefs × ProviderTrace × Except ErrVal Unit :=
  if snap.isWorkletStarted = false then
    (r, t, Except.error
      { name := "Error",
        message := "Worklet must be started before initializing wallet" })
  else
    let r1 := clearPrevCache snap r identifier
    if snap.isWorkletInitializedForWallet = true ∧
        snap.activeWalletId = some identifier then
      (r1, t, Except.ok ())
    else
      match r1.lastAuthError with
      | some ts =>
          if env.now - ts < AUTH_ERROR_COOLDOWN_MS then
            (r1, t, Except.error (cooldownError (AUTH_ERROR_COOLDOWN_MS - (env.now - ts))))
          else
            checkWalletStep env r1 t identifier
      | none => checkWalletStep env r1 t identifier

/-- ASCII lowercasing of one character, the fragment of toLowerCase
relevant to the fixed ASCII signature phrases. -/
def charLower (c : Char) : Char :=
  if 'A' ≤ c ∧ c ≤ 'Z' then Char.ofNat (c.toNat + 32) else c

/-- Whether the pattern is a prefix of the haystack, character by
character. -/
def charsStartWith : List Char → List Char → Bool
  | [], _ => true
  | _ :: _, [] => false
  | p :: ps, c :: cs => (p == c) && charsStartWith ps cs

/-- Whether the pattern occurs as a contiguous run of the haystack. -/
def charsContain (pat : List Char) : List Char → Bool
  | [] => pat.isEmpty
  | c :: cs => charsStartWith pat (c :: cs) || charsContain pat cs

/-- Case-insensitive substring test, embedding toLowerCase plus includes:
the haystack is lowercased and the (already lowercase) pattern searched in
it. -/
def strContainsLower (s pat : String) : Bool :=
  charsContain pat.toList (s.toList.map charLower)

/-- The decryption-failure signature test of loadExisting (lines 370-374):
the lowercased normalized message contains one of the three phrases. -/
def isDecryptionMessage (msg : String) : Bool :=
  strContainsLower msg "decryption failed" ||
  strContainsLower msg "failed to decrypt" ||
  strContainsLower msg "decrypt seed"

/-- The distinguished cleanup error constructed on the decryption path
(lines 391-395): the wrapper message around the normalized message, with
the original name kept when non-empty and the DecryptionError name used
only as a fallback for a falsy name. -/
def mkCleanupError (err : ErrVal) : ErrVal :=
  { name := if err.name ≠ "" then err.name else "DecryptionError",
    message :=
      "Failed to decrypt wallet: The stored wallet data appears to be " ++
      "corrupted or encrypted with a different key. " ++
      "Corrupted data has been cleaned up. Error: " ++ err.message }

/-- loadExisting from the source (lines 340-414).  After the prerequisites,
the does-not-exist guard and the START_LOADING dispatch read the wallet
state captured at render time, not the state produced by the dispatches of
checkPrerequisites.  On an initialization failure whose normalized message
matches the decryption signature, the credentials cache entry is evicted,
secure-storage deletion is attempted with its own failure swallowed, the
cleanup error is dispatched and thrown; that throw is raised inside the
try block whose catch then dispatches and rethrows the original normalized
error.  On an authentication-shaped failure the cooldown timestamp is
recorded.  Every failure path dispatches WALLET_ERROR and rethrows. -/
def loadExisting (snap : ProviderSnapshot) (env : ProviderEnv)
    (r : ProviderRefs) (t : ProviderTrace) (identifier : String) :
    ProviderRefs × ProviderTrace × Except ErrVal Unit :=
  match checkPrerequisites snap env r t identifier with
  | (r1, t1, .error e) => (r1, t1, Except.error e)
  | (r1, t1, .ok _) =>
      let walletExistsSnap : Option Bool :=
        match snap.walletState with
        | .loading _ ex => some ex
        | _ => none
      if walletExistsSnap = some false then
        (r1, t1, Except.error
          { name := "Error",
            message := "Cannot load existing wallet - wallet with identifier \"" ++
              identifier ++ "\" does not exist" })
      else
        let startAction := WalletAction.START_LOADING identifier (walletExistsSnap.getD true)
        let r2 :=
          match snap.walletState with
          | .loading _ _ => r1
          | _ => { r1 with machine := walletReducer r1.machine startAction }
        let t2 := { t1 with calledInitializeWallet := t1.calledInitializeWallet ++ [(false, identifier)] }
        match env.initializeWallet false identifier with
        | .ok _ =>
            ({ r2 with activeWalletId := some identifier,
                       machine := walletReducer r2.machine (.WALLET_LOADED identifier) },
             t2, Except.ok ())
        | .error e0 =>
            let err := normErr env e0
            if isDecryptionMessage err.message then
              let r3 := { r2 with credCache := r2.credCache.erase identifier }
              let t3 := { t2 with deleteAttempts := t2.deleteAttempts ++ [identifier] }
              let cleanupError := mkCleanupError err
              let m4 := walletReducer r3.machine (.WALLET_ERROR (some identifier) cleanupError)
              let r4 := { r3 with machine := m4 }
              let m5 := walletReducer r4.machine (.WALLET_ERROR (some identifier) err)
              let r5 := { r4 with machine := m5 }
              (r5, t3, Except.error err)
            else
              let r3 :=
                if env.isAuthError err then { r2 with lastAuthError := some env.now }
                else r2
              let m4 := walletReducer r3.machine (.WALLET_ERROR (some identifier) err)
              ({ r3 with machine := m4 }, t2, Except.error err)

/-- The identifier fallback of createNew: a falsy argument (absent or the
empty string) falls back to the default identifier. -/
def targetIdentifier : Option String → String
  | some s => if s = "" then "default" else s
  | none => "default"

/-- The error-recovery step of createNew: when the captured wallet state is
an error and the worklet is started, RESET is dispatched. -/
def resetIfError (snap : ProviderSnapshot) (r : ProviderRefs) : ProviderRefs :=
  if (match snap.walletState with | .error _ _ => true | _ => false) &&
      snap.isWorkletStarted then
    { r with machine := walletReducer r.machine .RESET }
  else r

/-- createNew from the source (lines 417-454).  The identifier argument is
optional and a falsy value (absent or empty) falls back to the default
identifier.  When the captured wallet state is an error and the worklet is
started, RESET is dispatched first.  Then the prerequisites run for the
target, START_LOADING is dispatched with walletExists false, and the
credential initialization is issued with createNew true; on success the
active pointer is set and WALLET_LOADED dispatched; on failure the cooldown
timestamp is recorded for authentication-shaped errors and WALLET_ERROR is
dispatched before rethrowing. -/
def createNew (snap : ProviderSnapshot) (env : ProviderEnv)
    (r : ProviderRefs) (t : ProviderTrace) (identifier : Option String) :
    ProviderRefs × ProviderTrace × Except ErrVal Unit :=
  let target := targetIdentifier identifier
  let r0 := resetIfError snap r
  match checkPrerequisites snap env r0 t target with
  | (r1, t1, .error e) => (r1, t1, Except.error e)
  | (r1, t1, .ok _) =>
      let m2 := walletReducer r1.machine (.START_LOADING target false)
      let r2 := { r1 with machine := m2 }
      let t2 := { t1 with calledInitializeWallet := t1.calledInitializeWallet ++ [(true, target)] }
      match env.initializeWallet true target with
      | .ok _ =>
          ({ r2 with activeWalletId := some target,
                     machine := walletReducer r2.machine (.WALLET_LOADED target) },
           t2, Except.ok ())
      | .error e0 =>
          let err := normErr env e0
          let r3 :=
            if env.isAuthError err then { r2 with lastAuthError := some env.now }
            else r2
          let m3 := walletReducer r3.machine (.WALLET_ERROR (some target) err)
          ({ r3 with machine := m3 }, t2, Except.error err)

/-! ## Concrete evaluation fixtures

A render-time snapshot, refs and environments for evaluating the provider
entry points at concrete inputs: the typical state right after the worklet
has started and before any wallet has been loaded. -/

/-- Snapshot with the worklet started, no wallet initialized, the reducer
in its initial state and no active wallet. -/
def snapBase : ProviderSnapshot :=
  { isWorkletStarted := true, isWorkletInitializedForWallet := false,
    walletState := .not_loaded, activeWalletId := none }

/-- Live refs matching snapBase, with a cached credentials entry for the
identifier alice. -/
def refsBase : ProviderRefs :=
  { machine := .not_loaded, activeWalletId := none, lastAuthError := none,
    credCache := ["alice"] }

/-- Live refs matching snapBase with an authentication failure recorded at
time zero. -/
def refsAuth : ProviderRefs :=
  { machine := .not_loaded, activeWalletId := none, lastAuthError := some 0,
    credCache := ["alice"] }

/-- Environment in which the wallet alice does not exist in secure storage
and the credential initialization fails with a generic message; the
sanitizer leaves messages unchanged. -/
def envLoadFail : ProviderEnv :=
  { hasWallet := fun _ => Except.ok false,
    initializeWallet := fun _ _ =>
      Except.error { name := "Error", message := "load failed" },
    deleteWallet := fun _ => Except.ok (),
    normalizeMsg := id, isAuthError := fun _ => false, now := 0 }

/-- Environment in which the wallet alice exists but its credential
initialization fails with a decryption-failure message carried by an Error
whose name is the JavaScript default. -/
def envDecryptFail : ProviderEnv :=
  { hasWallet := fun _ => Except.ok true,
    initializeWallet := fun _ _ =>
      Except.error { name := "Error", message := "decryption failed" },
    deleteWallet := fun _ => Except.ok (),
    normalizeMsg := id, isAuthError := fun _ => false, now := 0 }

/-- Environment in which every external call succeeds, parameterized by the
clock reading of the invocation. -/
def envOk (clock : Int) : ProviderEnv :=
  { hasWallet := fun _ => Except.ok true,
    initializeWallet := fun _ _ => Except.ok (),
    deleteWallet := fun _ => Except.ok (),
    normalizeMsg := id, isAuthError := fun _ => false, now := clock }

end WdkCore

namespace WdkCore

/-! ## Helper lemmas -/

/-- The lock flag of the mutex always agrees with the presence of a running
operation: the lock is taken exactly while an operation body is executing. -/
theorem mutexRun_locked_iff_running {E : Type} (evs : List (MutexEvent E))
    (s : MutexTrState E) (h : s.locked = s.running.isSome) :
    (mutexRun s evs).locked = (mutexRun s evs).running.isSome := by
  induction evs generalizing s with
  | nil => exact h
  | cons e es ih =>
      refine ih _ ?_
      cases e with
      | callEv f =>
          by_cases hl : s.locked
          · simpa [mutexStep, hl] using h
          · simp [mutexStep, hl]
      | settleEv =>
          cases hr : s.running with
          | none => simpa [mutexStep, hr] using h
          | some g => simp [mutexStep, hr]

/-! ## Claim theorems -/

/-- C1: for the useMutex mutex with queuing disabled, an acquire call made
while the lock is held returns immediately without invoking the operation
and without rejecting; a call made while the lock is free sets the lock,
runs the operation, and clears the lock when the operation settles,
including when it throws, in which case the error propagates to the caller
after the lock is released; and after any schedule of acquire calls has
settled, the lock observer reports false. -/
theorem C1_useMutex_acquire {E : Type} (f : Except E Unit) (e : E)
    (s : MutexTrState E) (evs : List (MutexEvent E)) :
    mutexAcquire true f = (true, Except.ok (), false) ∧
    mutexAcquire false f = (false, f, true) ∧
    mutexAcquire false (Except.error e) = (false, Except.error e, true) ∧
    (s.locked = true → mutexStep s (.callEv f) = s) ∧
    (s.locked = s.running.isSome →
      (mutexRun s evs).locked = (mutexRun s evs).running.isSome) ∧
    ((mutexRun { locked := false, running := none } evs).running = none →
      (mutexRun { locked := false, running := none } evs).locked = false) := by
  refine ⟨rfl, rfl, rfl, ?_, ?_, ?_⟩
  · intro h; simp [mutexStep, h]
  · intro h; exact mutexRun_locked_iff_running evs s h
  · intro h
    have := mutexRun_locked_iff_running (E := E) evs
      { locked := false, running := none } rfl
    simpa [h] using this

/-- Closed instance of C1: an acquire call over a held lock resolves
without running its operation, and a back-to-back schedule in which the
first call runs a throwing operation and the second call is dropped leaves
the lock free after both calls have settled. -/
theorem C1_useMutex_acquire_witness :
    mutexAcquire true (Except.error "boom") = (true, Except.ok (), false) ∧
    (mutexRun { locked := false, running := none }
      [MutexEvent.callEv (Except.error "boom"), MutexEvent.callEv (Except.ok ()),
       MutexEvent.settleEv]).locked = false := by
  have h := C1_useMutex_acquire (Except.error "boom") "boom"
    { locked := true, running := some (Except.error "boom") }
    [MutexEvent.callEv (Except.error "boom"), MutexEvent.callEv (Except.ok ()),
     MutexEvent.settleEv]
  exact ⟨h.1, h.2.2.2.2.2 rfl⟩

/-- C2: the wallet lifecycle reducer is a pure total function of state and
event: every state maps to checking under CHECK_WALLET, to loading under
WALLET_CHECKED and START_LOADING, to ready under WALLET_LOADED, to error
under WALLET_ERROR, to not_loaded under RESET, and any event outside the
declared set leaves the state unchanged through the default arm. -/
theorem C2_walletReducer_total (s : WalletState) (id : String) (ex : Bool)
    (oid : Option String) (cause : ErrVal) :
    walletReducer s (.CHECK_WALLET id) = .checking id ∧
    walletReducer s (.WALLET_CHECKED id ex) = .loading id ex ∧
    walletReducer s (.START_LOADING id ex) = .loading id ex ∧
    walletReducer s (.WALLET_LOADED id) = .ready id ∧
    walletReducer s (.WALLET_ERROR oid cause) = .error oid cause ∧
    walletReducer s .RESET = .not_loaded ∧
    walletReducer s .UNKNOWN = s :=
  ⟨rfl, rfl, rfl, rfl, rfl, rfl, rfl⟩

/-- Counterexample to C3 as stated: with the runtime error field set to the
empty string (a set, non-null value), the worklet started and the wallet
ready, getCombinedStatus returns READY, not ERROR, because the source tests
the error field for JavaScript truthiness and the empty string is falsy. -/
theorem C3_counterexample :
    ({ isWorkletStarted := true, isLoading := false,
       error := some "" } : WorkletView).error ≠ none ∧
    getCombinedStatus
      { isWorkletStarted := true, isLoading := false, error := some "" }
      (.ready "w") = InitializationStatus.READY ∧
    InitializationStatus.READY ≠ InitializationStatus.ERROR := by
  refine ⟨by simp, rfl, by decide⟩

/-- C3 amended: for every worklet and wallet state, getCombinedStatus
agrees with the priority algorithm in which an error set to a NON-EMPTY
string dominates, a not-started runtime yields StartingRuntime when loading
and Idle otherwise, and a started runtime maps the wallet variant through
NotLoaded to RuntimeReady, Checking and Loading to LoadingWallet, Ready to
Ready and Error to Error; the projection is a function of its inputs, so
identical inputs always yield identical outputs and the inputs are never
mutated. -/
theorem C3_getCombinedStatus_algorithm (w : WorkletView) (ws : WalletState) :
    getCombinedStatus w ws = projectSpecified w ws := by
  obtain ⟨st, ld, err⟩ := w
  cases err with
  | none =>
      cases st <;> cases ld <;> cases ws <;>
        simp [getCombinedStatus, projectSpecified,
          projectSpecified.projectNoErrorSpecified, strTruthy]
  | some s =>
      by_cases h : s = "" <;>
        cases st <;> cases ld <;> cases ws <;>
          simp [getCombinedStatus, projectSpecified,
            projectSpecified.projectNoErrorSpecified, strTruthy, h]

/-- C4: startWorklet is a no-op when the store already shows loading or
started; two back-to-back calls while the first is still pending cause
exactly one runtime-start side effect; and when the start attempt fails it
clears the handle fields, sets the error field, leaves started and loading
false, and rethrows the normalized error. -/
theorem C4_startWorklet (s : WorkletStoreState) (cfg : String)
    (a : Except String String) (m : String) :
    (s.isLoading = true → startWorklet s cfg a = (s, Except.ok (), false)) ∧
    (s.isWorkletStarted = true → startWorklet s cfg a = (s, Except.ok (), false)) ∧
    (s.isLoading = false → s.isWorkletStarted = false →
      (startWorkletEnter s).2 = true ∧
      (startWorkletEnter (startWorkletEnter s).1).2 = false) ∧
    ¬((startWorkletEnter s).2 = true ∧
      (startWorkletEnter (startWorkletEnter s).1).2 = true) ∧
    (s.isLoading = false → s.isWorkletStarted = false →
      startWorklet s cfg (Except.error m) =
        ({ s with error := some m, isLoading := false, worklet := none,
                  hrpc := none, ipc := none, isWorkletStarted := false },
         Except.error m, true)) := by
  refine ⟨?_, ?_, ?_, ?_, ?_⟩
  · intro h; simp [startWorklet, h]
  · intro h
    by_cases hl : s.isLoading <;> simp [startWorklet, h, hl]
  · intro h1 h2
    constructor
    · simp [startWorkletEnter, h1, h2]
    · simp [startWorkletEnter, h1, h2]
  · rintro ⟨h1, h2⟩
    by_cases hl : s.isLoading
    · simp [startWorkletEnter, hl] at h1
    · by_cases hs : s.isWorkletStarted
      · simp [startWorkletEnter, hl, hs] at h1
      · simp [startWorkletEnter, hl, hs] at h2
  · intro h1 h2
    simp [startWorklet, h1, h2]

/-- Closed instance of C4: from a fresh store a failing start attempt
leaves a store with the handles cleared, the error recorded and both flags
false, and a second enter while the first is pending does not start. -/
theorem C4_startWorklet_witness :
    startWorklet
      { isLoading := false, isWorkletStarted := false, isInitialized := false,
        error := none, worklet := none, hrpc := none, ipc := none,
        networkConfigs := none, encryptionKey := none, encryptedSeed := none,
        workletStartResult := none, wdkInitResult := none }
      "cfg" (Except.error "start failed") =
      ({ isLoading := false, isWorkletStarted := false, isInitialized := false,
         error := some "start failed", worklet := none, hrpc := none, ipc := none,
         networkConfigs := none, encryptionKey := none, encryptedSeed := none,
         workletStartResult := none, wdkInitResult := none },
       Except.error "start failed", true) ∧
    (startWorkletEnter (startWorkletEnter
      { isLoading := false, isWorkletStarted := false, isInitialized := false,
        error := none, worklet := none, hrpc := none, ipc := none,
        networkConfigs := none, encryptionKey := none, encryptedSeed := none,
        workletStartResult := none, wdkInitResult := none }).1).2 = false := by
  have h := C4_startWorklet
    { isLoading := false, isWorkletStarted := false, isInitialized := false,
      error := none, worklet := none, hrpc := none, ipc := none,
      networkConfigs := none, encryptionKey := none, encryptedSeed := none,
      workletStartResult := none, wdkInitResult := none }
    "cfg" (Except.error "start failed") "start failed"
  exact ⟨h.2.2.2.2 rfl rfl, (h.2.2.1 rfl rfl).2⟩

/-- C5: initializeWDK throws the precondition error whenever the runtime is
not started, and is idempotent on identical credentials: when the store is
already initialized with exactly the same encryption key and encrypted
seed, the call returns success without issuing the runtime call and without
changing any state field. -/
theorem C5_initializeWDK (s : WorkletStoreState) (k sd : String)
    (a : Except String (Option String)) :
    (s.isWorkletStarted = false →
      initializeWDK s k sd a =
        (s, Except.error "Worklet must be started before initializing WDK", false)) ∧
    (s.isWorkletStarted = true → s.hrpc = some () → s.isInitialized = true →
      s.encryptionKey = some k → s.encryptedSeed = some sd →
      initializeWDK s k sd a = (s, Except.ok (), false)) := by
  constructor
  · intro h; simp [initializeWDK, h]
  · intro h1 h2 h3 h4 h5
    simp [initializeWDK, h1, h2, h3, h4, h5]

/-- Closed instance of C5: a not-started store rejects with the
precondition message, and an initialized store with matching credentials
returns success unchanged without a runtime call. -/
theorem C5_initializeWDK_witness :
    initializeWDK
      { isLoading := false, isWorkletStarted := false, isInitialized := false,
        error := none, worklet := none, hrpc := none, ipc := none,
        networkConfigs := none, encryptionKey := none, encryptedSeed := none,
        workletStartResult := none, wdkInitResult := none }
      "k" "sd" (Except.ok none) =
      ({ isLoading := false, isWorkletStarted := false, isInitialized := false,
         error := none, worklet := none, hrpc := none, ipc := none,
         networkConfigs := none, encryptionKey := none, encryptedSeed := none,
         workletStartResult := none, wdkInitResult := none },
       Except.error "Worklet must be started before initializing WDK", false) ∧
    initializeWDK
      { isLoading := false, isWorkletStarted := true, isInitialized := true,
        error := none, worklet := some (), hrpc := some (), ipc := some (),
        networkConfigs := some "cfg", encryptionKey := some "k",
        encryptedSeed := some "sd", workletStartResult := some "r",
        wdkInitResult := none }
      "k" "sd" (Except.error "unused") =
      ({ isLoading := false, isWorkletStarted := true, isInitialized := true,
         error := none, worklet := some (), hrpc := some (), ipc := some (),
         networkConfigs := some "cfg", encryptionKey := some "k",
         encryptedSeed := some "sd", workletStartResult := some "r",
         wdkInitResult := none },
       Except.ok (), false) := by
  constructor
  · exact (C5_initializeWDK _ "k" "sd" (Except.ok none)).1 rfl
  · exact (C5_initializeWDK _ "k" "sd" (Except.error "unused")).2 rfl rfl rfl rfl rfl

/-- Clearing the previous credentials cache entry does not touch the
last-auth-error ref. -/
theorem clearPrevCache_lastAuthError (snap : ProviderSnapshot)
    (r : ProviderRefs) (id : String) :
    (clearPrevCache snap r id).lastAuthError = r.lastAuthError := by
  unfold clearPrevCache
  cases snap.activeWalletId with
  | none => rfl
  | some prev => by_cases h : prev ≠ id <;> simp [h]

/-- Dispatching RESET before createNew does not touch the last-auth-error
ref. -/
theorem resetIfError_lastAuthError (snap : ProviderSnapshot) (r : ProviderRefs) :
    (resetIfError snap r).lastAuthError = r.lastAuthError := by
  unfold resetIfError
  split <;> rfl

/-- The existence-check step always records that the secure-storage check
ran. -/
theorem checkWalletStep_calledHasWallet (env : ProviderEnv) (r : ProviderRefs)
    (t : ProviderTrace) (id : String) :
    (checkWalletStep env r t id).2.1.calledHasWallet = true := by
  unfold checkWalletStep
  cases env.hasWallet id <;> rfl

/-- The prerequisites never issue a credential initialization. -/
theorem checkPrerequisites_initTrace (snap : ProviderSnapshot) (env : ProviderEnv)
    (r : ProviderRefs) (t : ProviderTrace) (id : String) :
    (checkPrerequisites snap env r t id).2.1.calledInitializeWallet =
      t.calledInitializeWallet := by
  by_cases h1 : snap.isWorkletStarted = false
  · simp [checkPrerequisites, h1]
  · by_cases h2 : snap.isWorkletInitializedForWallet = true ∧
        snap.activeWalletId = some id
    · simp [checkPrerequisites, h1, h2]
    · cases h3 : (clearPrevCache snap r id).lastAuthError with
      | none =>
          cases h4 : env.hasWallet id <;>
            simp [checkPrerequisites, checkWalletStep, h1, h2, h3, h4]
      | some ts =>
          by_cases h5 : env.now - ts < AUTH_ERROR_COOLDOWN_MS
          · simp [checkPrerequisites, h1, h2, h3, h5]
          · cases h4 : env.hasWallet id <;>
              simp [checkPrerequisites, checkWalletStep, h1, h2, h3, h5, h4]

/-- Inside the cooldown window the prerequisites reject with the cooldown
error, without running the existence check, leaving the trace unchanged. -/
theorem checkPrerequisites_blocked (snap : ProviderSnapshot) (env : ProviderEnv)
    (r : ProviderRefs) (t : ProviderTrace) (id : String) (T : Int)
    (hs : snap.isWorkletStarted = true)
    (hsc : ¬(snap.isWorkletInitializedForWallet = true ∧
      snap.activeWalletId = some id))
    (hT : r.lastAuthError = some T)
    (hlt : env.now - T < AUTH_ERROR_COOLDOWN_MS) :
    checkPrerequisites snap env r t id =
      (clearPrevCache snap r id, t,
       Except.error (cooldownError (AUTH_ERROR_COOLDOWN_MS - (env.now - T)))) := by
  have hT1 : (clearPrevCache snap r id).lastAuthError = some T := by
    rw [clearPrevCache_lastAuthError, hT]
  simp [checkPrerequisites, hs, hsc, hT1, hlt]

/-- At or beyond the cooldown window the prerequisites fall through to the
existence check. -/
theorem checkPrerequisites_permitted (snap : ProviderSnapshot) (env : ProviderEnv)
    (r : ProviderRefs) (t : ProviderTrace) (id : String) (T : Int)
    (hs : snap.isWorkletStarted = true)
    (hsc : ¬(snap.isWorkletInitializedForWallet = true ∧
      snap.activeWalletId = some id))
    (hT : r.lastAuthError = some T)
    (hge : AUTH_ERROR_COOLDOWN_MS ≤ env.now - T) :
    checkPrerequisites snap env r t id =
      checkWalletStep env (clearPrevCache snap r id) t id := by
  have hT1 : (clearPrevCache snap r id).lastAuthError = some T := by
    rw [clearPrevCache_lastAuthError, hT]
  have hnlt : ¬(env.now - T < AUTH_ERROR_COOLDOWN_MS) := not_lt.mpr hge
  simp [checkPrerequisites, hs, hsc, hT1, hnlt]

/-- loadExisting reports the existence check exactly as the prerequisites
left it: every later step preserves the flag. -/
theorem loadExisting_calledHasWallet (snap : ProviderSnapshot) (env : ProviderEnv)
    (r : ProviderRefs) (t : ProviderTrace) (id : String) :
    (loadExisting snap env r t id).2.1.calledHasWallet =
      (checkPrerequisites snap env r t id).2.1.calledHasWallet := by
  obtain ⟨sw, si, wstate, wact⟩ := snap
  rcases hcp : checkPrerequisites ⟨sw, si, wstate, wact⟩ env r t id with ⟨r1, t1, res⟩
  cases res with
  | error e => simp [loadExisting, hcp]
  | ok u =>
      cases hin : env.initializeWallet false id with
      | ok v =>
          cases wstate <;>
            (simp [loadExisting, hcp, hin]; try (split <;> simp))
      | error e0 =>
          by_cases hdec : isDecryptionMessage (normErr env e0).message <;>
            by_cases hauth : env.isAuthError (normErr env e0) <;>
              cases wstate <;>
                simp [loadExisting, hcp, hin, hdec, hauth] <;>
                  try (split <;> simp)

/-- createNew reports the existence check exactly as the prerequisites
left it. -/
theorem createNew_calledHasWallet (snap : ProviderSnapshot) (env : ProviderEnv)
    (r : ProviderRefs) (t : ProviderTrace) (oid : Option String) :
    (createNew snap env r t oid).2.1.calledHasWallet =
      (checkPrerequisites snap env (resetIfError snap r) t
        (targetIdentifier oid)).2.1.calledHasWallet := by
  rcases hcp : checkPrerequisites snap env (resetIfError snap r) t
      (targetIdentifier oid) with ⟨r1, t1, res⟩
  cases res with
  | error e => simp [createNew, hcp]
  | ok u =>
      cases hin : env.initializeWallet true (targetIdentifier oid) with
      | ok v => simp [createNew, hcp, hin]
      | error e0 =>
          by_cases hauth : env.isAuthError (normErr env e0) <;>
            simp [createNew, hcp, hin, hauth]

/-- C6: evaluation of loadExisting at the failing input (worklet started,
reducer snapshot not_loaded, no active wallet, alice absent from secure
storage).  The secure-storage check reports non-existence, yet the
credential initialization IS issued for alice and the call rejects with the
initialization failure, not with the does-not-exist error: the guard reads
the wallet state captured at render time, which the dispatches of
checkPrerequisites do not update, so the claimed behavior does not occur. -/
theorem C6_loadExisting_missing_wallet :
    envLoadFail.hasWallet "alice" = Except.ok false ∧
    (loadExisting snapBase envLoadFail refsBase emptyTrace
      "alice").2.1.calledInitializeWallet = [(false, "alice")] ∧
    (loadExisting snapBase envLoadFail refsBase emptyTrace "alice").2.2 =
      Except.error { name := "Error", message := "load failed" } ∧
    (loadExisting snapBase envLoadFail refsBase emptyTrace "alice").1.machine =
      WalletState.error (some "alice") { name := "Error", message := "load failed" } :=
  ⟨rfl, rfl, rfl, rfl⟩

/-- C7: evaluation of loadExisting at a decryption failure (worklet
started, alice exists, the credential initialization rejects with an Error
named Error whose message is a decryption-failure signature).  The cleanup
steps do run: the credentials cache entry for alice is evicted and the
secure-storage deletion is attempted.  But the call rejects with the
ORIGINAL normalized error and the machine ends in Error for alice with the
original error as cause: the throw of the constructed cleanup error is
raised inside the try block whose catch swallows it and rethrows the
original.  Moreover the constructed wrapper itself carries the original
name, because the source falls back to the DecryptionError name only when
the original name is falsy. -/
theorem C7_loadExisting_decryption_cleanup :
    (loadExisting snapBase envDecryptFail refsBase emptyTrace "alice").1.credCache
      = [] ∧
    (loadExisting snapBase envDecryptFail refsBase emptyTrace
      "alice").2.1.deleteAttempts = ["alice"] ∧
    (loadExisting snapBase envDecryptFail refsBase emptyTrace "alice").2.2 =
      Except.error { name := "Error", message := "decryption failed" } ∧
    (loadExisting snapBase envDecryptFail refsBase emptyTrace "alice").1.machine =
      WalletState.error (some "alice")
        { name := "Error", message := "decryption failed" } ∧
    (mkCleanupError { name := "Error", message := "decryption failed" }).name =
      "Error" :=
  ⟨rfl, rfl, rfl, rfl, rfl⟩

/-- C8: after an authentication failure recorded at time T, a new load
attempt (loadExisting or createNew) strictly inside the 3000 ms window
fails fast with the cooldown error stating the remaining time and leaves
the trace untouched (no runtime contact, no existence check), while an
attempt at or beyond the window reaches the existence check and is not
blocked by the cooldown. -/
theorem C8_auth_cooldown (snap : ProviderSnapshot) (env : ProviderEnv)
    (r : ProviderRefs) (t : ProviderTrace) (id : String) (T : Int)
    (hs : snap.isWorkletStarted = true)
    (hsc : ¬(snap.isWorkletInitializedForWallet = true ∧
      snap.activeWalletId = some id))
    (hT : r.lastAuthError = some T)
    (hid : targetIdentifier (some id) = id) :
    (env.now - T < AUTH_ERROR_COOLDOWN_MS →
      (loadExisting snap env r t id).2.2 =
        Except.error (cooldownError (AUTH_ERROR_COOLDOWN_MS - (env.now - T))) ∧
      (loadExisting snap env r t id).2.1 = t ∧
      (createNew snap env r t (some id)).2.2 =
        Except.error (cooldownError (AUTH_ERROR_COOLDOWN_MS - (env.now - T))) ∧
      (createNew snap env r t (some id)).2.1 = t) ∧
    (AUTH_ERROR_COOLDOWN_MS ≤ env.now - T →
      (loadExisting snap env r t id).2.1.calledHasWallet = true ∧
      (createNew snap env r t (some id)).2.1.calledHasWallet = true) := by
  have hT0 : (resetIfError snap r).lastAuthError = some T := by
    rw [resetIfError_lastAuthError, hT]
  constructor
  · intro hlt
    have hb := checkPrerequisites_blocked snap env r t id T hs hsc hT hlt
    have hb0 := checkPrerequisites_blocked snap env (resetIfError snap r) t id T
      hs hsc hT0 hlt
    refine ⟨?_, ?_, ?_, ?_⟩
    · simp [loadExisting, hb]
    · simp [loadExisting, hb]
    · simp [createNew, hid, hb0]
    · simp [createNew, hid, hb0]
  · intro hge
    have hp := checkPrerequisites_permitted snap env r t id T hs hsc hT hge
    have hp0 := checkPrerequisites_permitted snap env (resetIfError snap r) t id T
      hs hsc hT0 hge
    constructor
    · rw [loadExisting_calledHasWallet, hp, checkWalletStep_calledHasWallet]
    · rw [createNew_calledHasWallet, hid, hp0, checkWalletStep_calledHasWallet]

/-- Closed instance of C8 at the boundary: with the failure recorded at
time zero, an attempt at 2999 ms is rejected with one millisecond
remaining and performs no existence check, and an attempt at 3001 ms
reaches the existence check. -/
theorem C8_auth_cooldown_witness :
    (loadExisting snapBase (envOk 2999) refsAuth emptyTrace "alice").2.2 =
      Except.error (cooldownError 1) ∧
    (loadExisting snapBase (envOk 2999) refsAuth emptyTrace "alice").2.1 =
      emptyTrace ∧
    (createNew snapBase (envOk 2999) refsAuth emptyTrace (some "alice")).2.2 =
      Except.error (cooldownError 1) ∧
    (loadExisting snapBase (envOk 3001) refsAuth emptyTrace
      "alice").2.1.calledHasWallet = true ∧
    (createNew snapBase (envOk 3001) refsAuth emptyTrace
      (some "alice")).2.1.calledHasWallet = true := by
  have h1 := C8_auth_cooldown snapBase (envOk 2999) refsAuth emptyTrace "alice" 0
    rfl (by simp [snapBase]) rfl rfl
  have h2 := C8_auth_cooldown snapBase (envOk 3001) refsAuth emptyTrace "alice" 0
    rfl (by simp [snapBase]) rfl rfl
  have hb := h1.1 (by norm_num [envOk, AUTH_ERROR_COOLDOWN_MS])
  have hpm := h2.2 (by norm_num [envOk, AUTH_ERROR_COOLDOWN_MS])
  refine ⟨?_, hb.2.1, ?_, hpm.1, hpm.2⟩
  · have := hb.1
    simpa [envOk] using this
  · have := hb.2.2.1
    simpa [envOk] using this

mutual

/-- After conversion no BigInt remains anywhere in a value. -/
theorem hasBigInt_convert (v : JsonValue) :
    hasBigInt (convertBigIntToString v) = false :=
  match v with
  | .nullV => rfl
  | .boolV _ => rfl
  | .numV _ => rfl
  | .strV _ => rfl
  | .bigintV _ => rfl
  | .arrV items => by
      rw [convertBigIntToString]
      simpa [hasBigInt] using hasBigIntList_convert items
  | .objV fields => by
      rw [convertBigIntToString]
      simpa [hasBigInt] using hasBigIntFields_convert fields

/-- After conversion no BigInt remains in any element of an array. -/
theorem hasBigIntList_convert (xs : List JsonValue) :
    hasBigIntList (convertBigIntList xs) = false :=
  match xs with
  | [] => rfl
  | v :: vs => by
      rw [convertBigIntList, hasBigIntList, hasBigInt_convert v,
        hasBigIntList_convert vs]
      rfl

/-- After conversion no BigInt remains in any value of an object. -/
theorem hasBigIntFields_convert (fs : List (String × JsonValue)) :
    hasBigIntFields (convertBigIntFields fs) = false :=
  match fs with
  | [] => rfl
  | (k, v) :: rest => by
      rw [convertBigIntFields, hasBigIntFields, hasBigInt_convert v,
        hasBigIntFields_convert rest]
      rfl

end

/-- The array conversion is the elementwise map of the conversion. -/
theorem convertBigIntList_eq_map (xs : List JsonValue) :
    convertBigIntList xs = xs.map convertBigIntToString := by
  induction xs with
  | nil => rfl
  | cons v vs ih => rw [convertBigIntList, List.map, ih]

/-- The object conversion maps the conversion over the field values and
keeps the keys. -/
theorem convertBigIntFields_eq_map (fs : List (String × JsonValue)) :
    convertBigIntFields fs =
      fs.map (fun kv => (kv.1, convertBigIntToString kv.2)) := by
  induction fs with
  | nil => rfl
  | cons kv rest ih =>
      obtain ⟨k, v⟩ := kv
      rw [convertBigIntFields, List.map, ih]

/-- C9: for a runtime RPC call through callAccountMethod with method name
m, an absent result field rejects with the no-result message; a result
decoding to null rejects with the null-result message; an undecodable
result rejects with the parse-failure message naming m and the cause; and
on success every BigInt at any nesting depth inside objects and arrays is
converted to its decimal string representation before the value is
returned. -/
theorem C9_callAccountMethod (m raw cause : String)
    (p : String → Except String JsonValue) (v : JsonValue) (n : Int)
    (xs : List JsonValue) (fs : List (String × JsonValue)) :
    callAccountMethod m none p =
      Except.error ("Method " ++ m ++ " returned no result") ∧
    (raw ≠ "" → p raw = Except.ok JsonValue.nullV →
      callAccountMethod m (some raw) p =
        Except.error "Parsed result is null or undefined") ∧
    (raw ≠ "" → p raw = Except.error cause →
      callAccountMethod m (some raw) p =
        Except.error ("Failed to parse result from " ++ m ++ ": " ++ cause)) ∧
    (raw ≠ "" → p raw = Except.ok v → v ≠ JsonValue.nullV →
      callAccountMethod m (some raw) p =
        Except.ok (convertBigIntToString v)) ∧
    convertBigIntToString (JsonValue.bigintV n) = JsonValue.strV (toString n) ∧
    convertBigIntToString (JsonValue.arrV xs) =
      JsonValue.arrV (xs.map convertBigIntToString) ∧
    convertBigIntToString (JsonValue.objV fs) =
      JsonValue.objV (fs.map (fun kv => (kv.1, convertBigIntToString kv.2))) ∧
    hasBigInt (convertBigIntToString v) = false := by
  refine ⟨rfl, ?_, ?_, ?_, rfl, ?_, ?_, hasBigInt_convert v⟩
  · intro hraw hp
    simp [callAccountMethod, hraw, hp]
  · intro hraw hp
    simp [callAccountMethod, hraw, hp]
  · intro hraw hp hv
    cases v with
    | nullV => exact absurd rfl hv
    | boolV b => simp [callAccountMethod, hraw, hp]
    | numV k => simp [callAccountMethod, hraw, hp]
    | strV t => simp [callAccountMethod, hraw, hp]
    | bigintV k => simp [callAccountMethod, hraw, hp]
    | arrV items => simp [callAccountMethod, hraw, hp]
    | objV fields => simp [callAccountMethod, hraw, hp]
  · rw [convertBigIntToString, convertBigIntList_eq_map]
  · rw [convertBigIntToString, convertBigIntFields_eq_map]

/-- Closed instance of C9: the three rejection shapes at concrete inputs,
and a success in which a nested BigInt becomes its decimal string. -/
theorem C9_callAccountMethod_witness :
    callAccountMethod "getBalance" none (fun _ => Except.ok JsonValue.nullV) =
      Except.error "Method getBalance returned no result" ∧
    callAccountMethod "getBalance" (some "null")
      (fun _ => Except.ok JsonValue.nullV) =
      Except.error "Parsed result is null or undefined" ∧
    callAccountMethod "getBalance" (some "not json")
      (fun _ => Except.error "Unexpected token") =
      Except.error "Failed to parse result from getBalance: Unexpected token" ∧
    callAccountMethod "getBalance" (some "raw")
      (fun _ => Except.ok (JsonValue.objV
        [("amount", JsonValue.bigintV 5),
         ("tags", JsonValue.arrV [JsonValue.bigintV (-7)])])) =
      Except.ok (JsonValue.objV
        [("amount", JsonValue.strV "5"),
         ("tags", JsonValue.arrV [JsonValue.strV "-7"])]) := by
  have h1 := C9_callAccountMethod "getBalance" "null" "Unexpected token"
    (fun _ => Except.ok JsonValue.nullV) JsonValue.nullV 0 [] []
  have h2 := C9_callAccountMethod "getBalance" "not json" "Unexpected token"
    (fun _ => Except.error "Unexpected token") JsonValue.nullV 0 [] []
  have h3 := C9_callAccountMethod "getBalance" "raw" "Unexpected token"
    (fun _ => Except.ok (JsonValue.objV
      [("amount", JsonValue.bigintV 5),
       ("tags", JsonValue.arrV [JsonValue.bigintV (-7)])]))
    (JsonValue.objV
      [("amount", JsonValue.bigintV 5),
       ("tags", JsonValue.arrV [JsonValue.bigintV (-7)])]) 0 [] []
  refine ⟨h1.1, h1.2.1 (by decide) rfl, h2.2.2.1 (by decide) rfl, ?_⟩
  have h4 := h3.2.2.2.1 (by decide) rfl (by intro h; cases h)
  rw [h4]
  rfl

/-- C10: calling createNew with no identifier behaves exactly as calling it
with the default identifier, and on success the credential initialization
was issued for the identifier default with the createNew flag, the active
wallet pointer is set to default, and the machine ends Ready for default. -/
theorem C10_createNew_default (snap : ProviderSnapshot) (env : ProviderEnv)
    (r : ProviderRefs) (t : ProviderTrace) :
    createNew snap env r t none = createNew snap env r t (some "default") ∧
    ((createNew snap env r t none).2.2 = Except.ok () →
      (createNew snap env r t none).1.activeWalletId = some "default" ∧
      (createNew snap env r t none).1.machine = WalletState.ready "default" ∧
      (createNew snap env r t none).2.1.calledInitializeWallet =
        t.calledInitializeWallet ++ [(true, "default")]) := by
  have htgt : targetIdentifier (some "default") = targetIdentifier none := by
    simp [targetIdentifier]
  constructor
  · unfold createNew
    rw [htgt]
  · intro h
    rcases hcp : checkPrerequisites snap env (resetIfError snap r) t
        "default" with ⟨r1, t1, res⟩
    have ht1 : t1.calledInitializeWallet = t.calledInitializeWallet := by
      have := checkPrerequisites_initTrace snap env (resetIfError snap r) t
        "default"
      rw [hcp] at this
      exact this
    cases res with
    | error e => simp [createNew, targetIdentifier, hcp] at h
    | ok u =>
        cases hin : env.initializeWallet true "default" with
        | error e0 =>
            by_cases hauth : env.isAuthError (normErr env e0) <;>
              simp [createNew, targetIdentifier, hcp, hin, hauth] at h
        | ok v =>
            refine ⟨?_, ?_, ?_⟩ <;>
              simp [createNew, targetIdentifier, hcp, hin, walletReducer, ht1]

/-- Closed instance of C10: from the base state with a succeeding
environment, createNew with no identifier succeeds, sets the active wallet
pointer to default, ends Ready for default, and coincides with the call
that passes the default identifier explicitly. -/
theorem C10_createNew_default_witness :
    createNew snapBase (envOk 0) refsBase emptyTrace none =
      createNew snapBase (envOk 0) refsBase emptyTrace (some "default") ∧
    (createNew snapBase (envOk 0) refsBase emptyTrace none).1.activeWalletId =
      some "default" ∧
    (createNew snapBase (envOk 0) refsBase emptyTrace none).1.machine =
      WalletState.ready "default" := by
  have h := C10_createNew_default snapBase (envOk 0) refsBase emptyTrace
  have hok := h.2 rfl
  exact ⟨h.1, hok.1, hok.2.1⟩

end WdkCore